import Mathlib

/-!
# Verification of the user-behaviour tracking engine (src/userBehaviour.js)

A shallow embedding of the engine defined by the IIFE in src/userBehaviour.js.

Modelling conventions:
* JS numbers that the engine uses as timestamps, coordinates and config values
  are modelled as `Int` (the engine performs no fractional arithmetic on them).
* the consumer callback `config.processData` and every handler function are
  identified by a `Nat` identity (JS function identity); invoking the consumer
  callback is modelled by emitting a `(callbackId, snapshot)` delivery.
* `getTimestamp()` (= `Date.now()`) is modelled by passing the current clock
  reading `t : Int` into each operation; all `getTimestamp()` calls made inside
  one synchronous operation read the same `t`.
* the host is part of the state: the set of listeners actually attached to
  `window` (`winListeners`), the listeners attached to media elements
  (`elemListeners`) and the two `history` methods are fields of `Sys`, since
  the engine mutates them.
* value semantics are used for the result buffer in this functional model;
  reference/aliasing behaviour of `{...state.results}` versus
  `structuredClone(state.results)` is studied separately in the heap model at
  the end of the definitions section.
-/

namespace UserBehaviour

/-- The `userInfo` record captured by `resetResults` (lines 42-49). -/
structure UserInfo where
  windowWidth : Int
  windowHeight : Int
  appCodeName : String
  appName : String
  vendor : String
  platform : String
  userAgent : String
deriving DecidableEq

/-- The `time` sub-object of the result buffer (lines 50-54). -/
structure TimeWindow where
  startTime : Int
  currentTime : Int
  stopTime : Int
deriving DecidableEq

/-- The `clicks` sub-object of the result buffer (lines 55-58); a click detail
is `[clientX, clientY, pathString, timestamp]` (lines 91-96). -/
structure Clicks where
  clickCount : Int
  clickDetails : List (Int × Int × String × Int)
deriving DecidableEq

/-- A record pushed by the wrapped custom-event handler (lines 268-272);
`details` abstracts the opaque `e.detail` payload. -/
structure CustomEventRecord where
  eventName : String
  details : Int
  timestamp : Int
deriving DecidableEq

/-- The result buffer `state.results` (lines 41-69). -/
structure Results where
  userInfo : Option UserInfo
  time : TimeWindow
  clicks : Clicks
  mouseMovements : List (Int × Int × Int)
  mouseScroll : List (Int × Int × Int)
  keyboardActivities : List (String × Int)
  navigationHistory : List (String × Int)
  formInteractions : List (String × Int)
  touchEvents : List (String × Int × Int × Int)
  mediaInteractions : List (String × String × Int × Int)
  windowSizes : List (Int × Int × Int)
  visibilityChanges : List (String × Int)
  customEvents : List CustomEventRecord
deriving DecidableEq

/-- The configuration record (lines 6-24). `processData` is the identity of
the consumer callback function. -/
structure Config where
  userInfo : Bool
  clicks : Bool
  mouseMovement : Bool
  mouseMovementInterval : Int
  mouseScroll : Bool
  timeCount : Bool
  clearAfterProcess : Bool
  processTime : Int
  windowResize : Bool
  visibilitychange : Bool
  keyboardActivity : Bool
  pageNavigation : Bool
  formInteractions : Bool
  touchEvents : Bool
  audioVideoInteraction : Bool
  customEventRegistration : Bool
  processData : Nat
deriving DecidableEq

/-- `DEFAULT_CONFIG` (lines 6-24); callback id 0 stands for the default
`(results) => console.log(results)`. -/
def DEFAULT_CONFIG : Config :=
  { userInfo := true
    clicks := true
    mouseMovement := true
    mouseMovementInterval := 1
    mouseScroll := true
    timeCount := true
    clearAfterProcess := true
    processTime := 15
    windowResize := true
    visibilitychange := true
    keyboardActivity := true
    pageNavigation := true
    formInteractions := true
    touchEvents := true
    audioVideoInteraction := true
    customEventRegistration := true
    processData := 0 }

/-- The ambient host values read by `resetResults` (window size, navigator
fields) and the media elements found by `document.querySelectorAll` on line
214 (each element named by a `Nat` identity). -/
structure CaptureEnv where
  innerWidth : Int
  innerHeight : Int
  appCodeName : String
  appName : String
  vendor : String
  platform : String
  userAgent : String
  mediaElts : List Nat
deriving DecidableEq

/-- The `userInfo` object built on lines 42-49. -/
def captureUserInfo (env : CaptureEnv) : UserInfo :=
  { windowWidth := env.innerWidth
    windowHeight := env.innerHeight
    appCodeName := env.appCodeName
    appName := env.appName
    vendor := env.vendor
    platform := env.platform
    userAgent := env.userAgent }

/-- `resetResults` (lines 40-70): a fresh buffer; `userInfo` is captured only
when `config.userInfo` is set, all time fields are zero, all sequences empty. -/
def resetResults (env : CaptureEnv) (cfg : Config) : Results :=
  { userInfo := if cfg.userInfo then some (captureUserInfo env) else none
    time := { startTime := 0, currentTime := 0, stopTime := 0 }
    clicks := { clickCount := 0, clickDetails := [] }
    mouseMovements := []
    mouseScroll := []
    keyboardActivities := []
    navigationHistory := []
    formInteractions := []
    touchEvents := []
    mediaInteractions := []
    windowSizes := []
    visibilityChanges := []
    customEvents := [] }

/-- A node on a click event's propagation path. `localName` is `none` for
path entries that have no `localName` (e.g. `document`, `window`), matching
the `el.localName || ''` guard on line 85; `className` is the raw class
attribute string (truthy iff non-empty) and `classList` its token list. -/
structure DomElement where
  localName : Option String
  className : String
  classList : List String
  id : String
deriving DecidableEq

/-- A click event as consumed by `handleClick`: client coordinates, the value
of `e.composedPath()`, and the `getTimestamp()` reading taken while handling
it. -/
structure ClickEvent where
  clientX : Int
  clientY : Int
  composedPath : List DomElement
  ts : Int
deriving DecidableEq

/-- The per-node string built on lines 85-87:
`localName || ''`, plus `.` + the classList joined by `.` when `className` is
truthy, plus `#` + id when `id` is truthy. -/
def nodeStr (el : DomElement) : String :=
  let node := el.localName.getD ""
  let node := if el.className ≠ "" then node ++ "." ++ String.intercalate "." el.classList else node
  if el.id ≠ "" then node ++ "#" ++ el.id else node

/-- The `path` array built by the `forEach` on lines 82-89: the entry at index
`i` is skipped when `i >= composedPath.length - 2` (JS number arithmetic, so
the bound is an `Int`). -/
def clickPathParts (els : List DomElement) : List String :=
  els.enum.filterMap fun ie =>
    if (ie.1 : Int) ≥ (els.length : Int) - 2 then none else some (nodeStr ie.2)

/-- `handleClick` (lines 78-97) acting on the result buffer: increments
`clicks.clickCount` and pushes `[clientX, clientY, path.reverse().join(' > '),
timestamp]`. -/
def handleClick (e : ClickEvent) (r : Results) : Results :=
  { r with clicks :=
      { clickCount := r.clicks.clickCount + 1
        clickDetails := r.clicks.clickDetails ++
          [(e.clientX, e.clientY, String.intercalate " > " (clickPathParts e.composedPath).reverse, e.ts)] } }

/-- An implementation held by a `history` method slot: the saved original or
the `Proxy` installed by `patchHistoryMethods` (lines 105-123). -/
inductive HMethod
  | original
  | proxied
deriving DecidableEq

/-- A member of `state.intervals`: the mouse-sampling interval armed on lines
161-168 or the periodic-flush interval armed on lines 217-220, with its
`setInterval` period in milliseconds. -/
inductive IntervalKind
  | sampler (periodMs : Int)
  | flusher (periodMs : Int)
deriving DecidableEq

/-- The value part of a `state.listeners` entry: the event `type` and the
capture flag recorded with the handler (line 156). -/
structure LRec where
  type : String
  options : Bool
deriving DecidableEq

/-- The whole mutable world: the module state of the IIFE (lines 26-38)
together with the host structures the engine mutates (the listener set
actually attached to `window`, the listener sets attached to media elements,
and the two `history` method slots). `state.originalHistoryMethods` is the
pair of originals saved at module load; it is constant, so restoration writes
`HMethod.original`. -/
structure Sys where
  config : Config
  active : Bool
  listeners : List (Nat × LRec)
  intervals : List IntervalKind
  mediaElements : List (Nat × String × Nat)
  results : Option Results
  mousePosition : Option (Int × Int × Int)
  pushStateImpl : HMethod
  replaceStateImpl : HMethod
  winListeners : List (String × Nat)
  elemListeners : List (Nat × String × Nat)
deriving DecidableEq

/-- The module state right after the IIFE runs (lines 26-38): default config,
inactive, empty registries, `results` and `mousePosition` null, history
methods original, nothing attached to the host. -/
def initialSys : Sys :=
  { config := DEFAULT_CONFIG
    active := false
    listeners := []
    intervals := []
    mediaElements := []
    results := none
    mousePosition := none
    pushStateImpl := .original
    replaceStateImpl := .original
    winListeners := []
    elemListeners := [] }

/-- Function identities of the handlers the engine registers. The first three
are module-level functions (stable identity across sessions); the rest are
closures created inside `start()` / `trackMediaElement` / `registerCustomEvent`,
given fixed ids here since no claim depends on distinguishing the closures of
different sessions. -/
def handleMouseMoveId : Nat := 0

def handleClickId : Nat := 1

def handleFormSubmitId : Nat := 2

def scrollHandlerId : Nat := 3

def resizeHandlerId : Nat := 4

def visibilityHandlerId : Nat := 5

def keydownHandlerId : Nat := 6

def navHandlerId : Nat := 7

def touchHandlerId : Nat := 8

def mediaHandlerId (elt : Nat) : Nat := 100 + elt

/-- `window.addEventListener`: attaching an already-attached
(type, handler) pair is a no-op (EventTarget semantics). -/
def winAdd (l : List (String × Nat)) (type : String) (hid : Nat) : List (String × Nat) :=
  if (type, hid) ∈ l then l else l ++ [(type, hid)]

/-- `window.removeEventListener`: detaches the (type, handler) pair. -/
def winRemove (l : List (String × Nat)) (type : String) (hid : Nat) : List (String × Nat) :=
  l.filter fun p => p ≠ (type, hid)

/-- `Map.prototype.set` on `state.listeners`, keyed by handler identity:
replaces the record in place when the key is present, else appends. -/
def registrySet (m : List (Nat × LRec)) (k : Nat) (rec : LRec) : List (Nat × LRec) :=
  if m.any (fun p => p.1 = k) then m.map (fun p => if p.1 = k then (k, rec) else p)
  else m ++ [(k, rec)]

/-- The local `addListener` helper of `start()` (lines 154-157):
`window.addEventListener` plus `state.listeners.set(handler, {...})`. -/
def addListener (s : Sys) (type : String) (hid : Nat) (opts : Bool) : Sys :=
  { s with winListeners := winAdd s.winListeners type hid
           listeners := registrySet s.listeners hid { type := type, options := opts } }

/-- `element.addEventListener` on a media element (same no-op-on-duplicate
semantics as `winAdd`). -/
def elemAdd (l : List (Nat × String × Nat)) (rec : Nat × String × Nat) : List (Nat × String × Nat) :=
  if rec ∈ l then l else l ++ [rec]

/-- `element.removeEventListener`. -/
def elemRemove (l : List (Nat × String × Nat)) (rec : Nat × String × Nat) : List (Nat × String × Nat) :=
  l.filter fun p => p ≠ rec

/-- `trackMediaElement` (lines 125-140): subscribes one shared handler to the
four media events of `element` and records each subscription in
`state.mediaElements`. -/
def trackMediaElement (elt : Nat) (s : Sys) : Sys :=
  (["play", "pause", "ended", "volumechange"]).foldl
    (fun s evt =>
      { s with elemListeners := elemAdd s.elemListeners (elt, evt, mediaHandlerId elt)
               mediaElements := s.mediaElements ++ [(elt, evt, mediaHandlerId elt)] }) s

/-- Lines 149-151 of `start()`: flip `active`, rebuild the buffer and stamp
`startTime` with the current `getTimestamp()` reading. -/
def startActivate (env : CaptureEnv) (t : Int) (s : Sys) : Sys :=
  let s := { s with active := true }
  let r0 := resetResults env s.config
  { s with results := some { r0 with time := { r0.time with startTime := t } } }

/-- Lines 159-169 of `start()`: when `config.mouseMovement` is set, attach
`handleMouseMove` and arm the sampling interval. -/
def startMouseMovement (s : Sys) : Sys :=
  if s.config.mouseMovement then
    let s := addListener s "mousemove" handleMouseMoveId false
    { s with intervals := s.intervals ++ [.sampler (s.config.mouseMovementInterval * 1000)] }
  else s

/-- Lines 171-186 of `start()`: the click, scroll, resize, visibilitychange
and keydown subscriptions, each guarded by its config flag, in source order. -/
def startSimpleListeners (s : Sys) : Sys :=
  let s := if s.config.clicks then addListener s "click" handleClickId false else s
  let s := if s.config.mouseScroll then addListener s "scroll" scrollHandlerId false else s
  let s := if s.config.windowResize then addListener s "resize" resizeHandlerId false else s
  let s := if s.config.visibilitychange then addListener s "visibilitychange" visibilityHandlerId false else s
  if s.config.keyboardActivity then addListener s "keydown" keydownHandlerId false else s

/-- Lines 188-196 of `start()`: when `config.pageNavigation` is set,
`patchHistoryMethods()` (both history slots become the proxy) and the single
`navHandler` closure subscribed to the four navigation events — note the
registry `Map` is keyed by the handler, so these four `set` calls leave one
record, whose `type` is the last one, `locationchange`. -/
def startPageNavigation (s : Sys) : Sys :=
  if s.config.pageNavigation then
    let s := { s with pushStateImpl := .proxied, replaceStateImpl := .proxied }
    let s := addListener s "popstate" navHandlerId false
    let s := addListener s "pushstate" navHandlerId false
    let s := addListener s "replacestate" navHandlerId false
    addListener s "locationchange" navHandlerId false
  else s

/-- Lines 198-215 of `start()`: the capture-phase submit listener, the
touchstart listener, and media-element tracking, each guarded by its flag. -/
def startRemainingListeners (env : CaptureEnv) (s : Sys) : Sys :=
  let s := if s.config.formInteractions then addListener s "submit" handleFormSubmitId true else s
  let s := if s.config.touchEvents then addListener s "touchstart" touchHandlerId false else s
  if s.config.audioVideoInteraction then env.mediaElts.foldl (fun s e => trackMediaElement e s) s else s

/-- Lines 217-220 of `start()`: the periodic flusher is armed iff
`config.processTime` is truthy — i.e. nonzero, NOT iff it is positive. -/
def startFlusher (s : Sys) : Sys :=
  if s.config.processTime ≠ 0 then
    { s with intervals := s.intervals ++ [.flusher (s.config.processTime * 1000)] }
  else s

/-- `start()` (lines 147-221) at clock reading `t`: no-op when already
active, else the stages above in source order. -/
def start (env : CaptureEnv) (t : Int) (s : Sys) : Sys :=
  if s.active then s else
  startFlusher (startRemainingListeners env (startPageNavigation (startSimpleListeners
    (startMouseMovement (startActivate env t s)))))

/-- The dedup guard of the sampling interval (lines 162-164): record when the
buffer is empty or the cached sample's x or y differs from the last recorded
entry's. -/
def tickGuard (p : Int × Int × Int) (ms : List (Int × Int × Int)) : Bool :=
  match ms.getLast? with
  | none => true
  | some q => !(q.1 == p.1 && q.2.1 == p.2.1)

/-- One firing of the mouse-sampling interval callback (lines 161-166): if a
raw sample is cached and the guard passes, push the cached sample. (The
callback dereferences `state.results`; it can only fire while a session is
active, so `results` is non-null then; with no buffer the model leaves the
state unchanged.) -/
def mouseTick (s : Sys) : Sys :=
  match s.results, s.mousePosition with
  | some r, some p =>
      if tickGuard p r.mouseMovements then
        { s with results := some { r with mouseMovements := r.mouseMovements ++ [p] } }
      else s
  | _, _ => s

/-- `handleMouseMove` (lines 74-76) at clock reading `t`: caches
`[clientX, clientY, timestamp]`. -/
def handleMouseMove (x y t : Int) (s : Sys) : Sys :=
  { s with mousePosition := some (x, y, t) }

/-- `processResults` (lines 251-262) at clock reading `t`: stamp
`currentTime`, deliver `{...state.results}` to `config.processData`, then if
`config.clearAfterProcess` rebuild the buffer, re-assigning the old `userInfo`
when `config.userInfo` is set. Returns the delivery list
(`(callbackId, snapshot)`).  With `results` null the real call throws on line
252; the exception-aware variant `processResultsE` models that, and this
total variant leaves the state unchanged there. -/
def processResults (env : CaptureEnv) (t : Int) (s : Sys) : Sys × List (Nat × Results) :=
  match s.results with
  | none => (s, [])
  | some r =>
    let r := { r with time := { r.time with currentTime := t } }
    let s := { s with results := some r }
    if s.config.clearAfterProcess then
      let fresh := resetResults env s.config
      let fresh := if s.config.userInfo then { fresh with userInfo := r.userInfo } else fresh
      ({ s with results := some fresh }, [(s.config.processData, r)])
    else (s, [(s.config.processData, r)])

/-- Lines 225-247 of `stop()`: flip `active`, clear every interval, remove
from `window` each listener recorded in the registry and clear the registry,
remove each media subscription and clear that set, restore both history
methods from `state.originalHistoryMethods`, and stamp `stopTime`. -/
def stopTeardown (t : Int) (s : Sys) : Sys :=
  let s := { s with active := false }
  let s := { s with intervals := [] }
  let s := { s with
    winListeners := s.listeners.foldl (fun w (p : Nat × LRec) => winRemove w p.2.type p.1) s.winListeners
    listeners := [] }
  let s := { s with
    elemListeners := s.mediaElements.foldl (fun w (m : Nat × String × Nat) => elemRemove w m) s.elemListeners
    mediaElements := [] }
  let s := { s with pushStateImpl := .original, replaceStateImpl := .original }
  { s with results := s.results.map fun r => { r with time := { r.time with stopTime := t } } }

/-- `stop()` (lines 223-249) at clock reading `t`: no-op when idle, else the
teardown of lines 225-247 followed by the final `this.processResults()`. -/
def stop (env : CaptureEnv) (t : Int) (s : Sys) : Sys × List (Nat × Results) :=
  if s.active then processResults env t (stopTeardown t s) else (s, [])

/-- The public `config(newConfig)` (lines 143-145). The source stores
`{...DEFAULT_CONFIG, ...newConfig}`; the argument here is that merged record,
since no claim turns on the shallow merge itself. -/
def config (merged : Config) (s : Sys) : Sys :=
  { s with config := merged }

/-- `registerCustomEvent` (lines 264-281): no-op when the capability is off;
else attach the wrapper to `window` and record it in the registry (the
registry record stores the event name as the type and no options). `hid` is
the wrapper closure's identity. -/
def registerCustomEvent (eventName : String) (hid : Nat) (s : Sys) : Sys :=
  if s.config.customEventRegistration then
    { s with winListeners := winAdd s.winListeners eventName hid
             listeners := registrySet s.listeners hid { type := eventName, options := false } }
  else s

/-- `getResults` (lines 283-285) in the functional model: the current buffer
by value (`structuredClone` independence is studied in the heap model). -/
def getResults (s : Sys) : Option Results :=
  s.results

/-!
## Exceptions

The engine contains no `try`/`catch`.  The two fault-carrying entry points are
modelled with an explicit `Except`: a `.error` outcome is an exception that
propagates uncaught to the caller (the host's event dispatch for the custom
wrapper, the caller of `processResults` / `stop` for the flush path).  State
mutations performed before the throwing step persist, as in JS.
-/

/-- The faults that can arise: dereferencing the null `state.results`
(a `TypeError`), or a user-supplied function (consumer callback or custom
event handler) raising. -/
inductive JsError
  | typeError
  | handlerError
deriving DecidableEq

/-- `processResults` (lines 251-262) with faults explicit. `throwing cb`
models the consumer callback with identity `cb` raising when invoked.  With a
null buffer, line 252 (`state.results.time`) throws a `TypeError` before any
mutation; if the callback raises on line 253, the `currentTime` stamp
persists and the clear-after-process block is skipped. -/
def processResultsE (throwing : Nat → Bool) (env : CaptureEnv) (t : Int) (s : Sys) :
    Sys × Except JsError (List (Nat × Results)) :=
  match s.results with
  | none => (s, .error .typeError)
  | some r =>
    let r := { r with time := { r.time with currentTime := t } }
    let s := { s with results := some r }
    if throwing s.config.processData then (s, .error .handlerError)
    else if s.config.clearAfterProcess then
      let fresh := resetResults env s.config
      let fresh := if s.config.userInfo then { fresh with userInfo := r.userInfo } else fresh
      ({ s with results := some fresh }, .ok [(s.config.processData, r)])
    else (s, .ok [(s.config.processData, r)])

/-- One firing of the wrapper installed by `registerCustomEvent` (lines
267-274), with payload `detail` at clock reading `t`; `userThrows` models the
wrapped user handler raising.  With a null buffer, line 268
(`state.results.customEvents`) throws a `TypeError` before anything is
recorded; otherwise the record is pushed first and the user handler runs
after, so its exception propagates with the record already appended. -/
def fireCustomEventE (userThrows : Bool) (eventName : String) (detail : Int) (t : Int)
    (s : Sys) : Sys × Except JsError Unit :=
  match s.results with
  | none => (s, .error .typeError)
  | some r =>
    let rec1 : CustomEventRecord := { eventName := eventName, details := detail, timestamp := t }
    let r := { r with customEvents := r.customEvents ++ [rec1] }
    let s := { s with results := some r }
    if userThrows then (s, .error .handlerError) else (s, .ok ())

/-!
## Traces

A session is a sequence of engine operations and host callbacks, each paired
with the `Date.now()` reading at which it runs.  `step` dispatches one such
occurrence: public API calls run unconditionally; host callbacks (listener
firings, interval ticks) run only if the corresponding listener/interval is
currently installed, which is exactly when the host would invoke them.
-/

/-- Does `state.intervals` hold the periodic flusher? -/
def hasFlusher (l : List IntervalKind) : Bool :=
  l.any fun i => match i with | .flusher _ => true | .sampler _ => false

/-- Does `state.intervals` hold the mouse sampler? -/
def hasSampler (l : List IntervalKind) : Bool :=
  l.any fun i => match i with | .sampler _ => true | .flusher _ => false

/-- One occurrence in a session trace. -/
inductive Op
  | opStart
  | opStop
  | flushCall
  | timerFlush
  | tick
  | mouseMove (x y : Int)
  | click (clientX clientY : Int) (path : List DomElement)
  | keydown (k : String)
  | scroll (x y : Int)
  | setConfig (merged : Config)
deriving DecidableEq

/-- Dispatch one occurrence at clock reading `t`, returning the new state and
the snapshots delivered to the consumer during it. -/
def step (env : CaptureEnv) (t : Int) (op : Op) (s : Sys) : Sys × List (Nat × Results) :=
  match op with
  | .opStart => (start env t s, [])
  | .opStop => stop env t s
  | .flushCall => processResults env t s
  | .timerFlush => if hasFlusher s.intervals then processResults env t s else (s, [])
  | .tick => (if hasSampler s.intervals then mouseTick s else s, [])
  | .mouseMove x y =>
      (if ("mousemove", handleMouseMoveId) ∈ s.winListeners then handleMouseMove x y t s else s, [])
  | .click cx cy path =>
      (if ("click", handleClickId) ∈ s.winListeners then
        { s with results := s.results.map (handleClick { clientX := cx, clientY := cy, composedPath := path, ts := t }) }
      else s, [])
  | .keydown k =>
      (if ("keydown", keydownHandlerId) ∈ s.winListeners then
        { s with results := s.results.map fun r => { r with keyboardActivities := r.keyboardActivities ++ [(k, t)] } }
      else s, [])
  | .scroll x y =>
      (if ("scroll", scrollHandlerId) ∈ s.winListeners then
        { s with results := s.results.map fun r => { r with mouseScroll := r.mouseScroll ++ [(x, y, t)] } }
      else s, [])
  | .setConfig merged => (config merged s, [])

/-- Run a timed trace, accumulating consumer deliveries in order. -/
def run (env : CaptureEnv) (s : Sys) : List (Int × Op) → Sys × List (Nat × Results)
  | [] => (s, [])
  | (t, op) :: rest =>
    let p := step env t op s
    let q := run env p.1 rest
    (q.1, p.2 ++ q.2)

/-- The trace's clock readings are non-decreasing and bounded below by `t`
(`Date.now()` readings never decrease and are non-negative when `t` is). -/
def mono (t : Int) : List (Int × Op) → Bool
  | [] => true
  | (u, _) :: rest => decide (t ≤ u) && mono u rest

/-- The clock reading of the trace's last occurrence (or `t` for the empty
trace). -/
def lastTime (t : Int) : List (Int × Op) → Int
  | [] => t
  | (u, _) :: rest => lastTime u rest

/-!
## Heap model of the result object

JS objects live on a heap and are passed by reference, which is what
distinguishes the snapshot handed out by `getResults()`
(`structuredClone(state.results)`, line 284) from the object handed to the
consumer callback by `processResults()` (`{...state.results}`, line 253): the
spread copies only the top level, so every nested array/object of the
delivered value is the SAME heap cell as the live buffer's.  This section
models exactly that: a heap of cells addressed by `Nat` references, the
result object as a record of references, the two copy operations, and
mutation through a reference.
-/

/-- A heap reference (a JS object identity). -/
abbrev Ref := Nat

/-- An element of one of the result arrays.  `mm` is a mouse-movement triple,
`cd` a click-detail tuple, `other` any record of the remaining sequences
(whose exact shape does not matter for aliasing). -/
inductive HEntry
  | mm (x y ts : Int)
  | cd (x y : Int) (path : String) (ts : Int)
  | other (tag : String) (a b : Int)
deriving DecidableEq

/-- A heap cell: one of the arrays, the nested `clicks` object (whose
`clickDetails` field is itself a reference), the `time` object, or the
`userInfo` object. -/
inductive HCell
  | arr (entries : List HEntry)
  | clicksObj (clickCount : Int) (clickDetails : Ref)
  | timeObj (startTime currentTime stopTime : Int)
  | infoObj (u : UserInfo)
deriving DecidableEq

/-- The heap: cell at address `i` is the `i`-th list element. -/
abbrev Heap := List HCell

/-- Dereference. -/
def hGet (h : Heap) (r : Ref) : Option HCell :=
  h.get? r

/-- Overwrite the cell at `r` (no-op when `r` is unallocated, as `List.set`). -/
def hSet (h : Heap) (r : Ref) (c : HCell) : Heap :=
  h.set r c

/-- Allocate a fresh cell, returning its reference. -/
def hAlloc (h : Heap) (c : HCell) : Heap × Ref :=
  (h ++ [c], h.length)

/-- `state.results` as a JS object: a record of references to the heap cells
holding its fields (`userInfo` is `none` when the field is `null`). -/
structure HResults where
  userInfo : Option Ref
  time : Ref
  clicks : Ref
  mouseMovements : Ref
  mouseScroll : Ref
  keyboardActivities : Ref
  navigationHistory : Ref
  formInteractions : Ref
  touchEvents : Ref
  mediaInteractions : Ref
  windowSizes : Ref
  visibilityChanges : Ref
  customEvents : Ref
deriving DecidableEq

/-- `{ ...state.results }` (line 253): a fresh top-level object each of whose
fields holds the same value as the live one — for object/array fields, the
same reference.  This is the object `processResults` delivers to the consumer
callback. -/
def spreadResults (r : HResults) : HResults :=
  { userInfo := r.userInfo
    time := r.time
    clicks := r.clicks
    mouseMovements := r.mouseMovements
    mouseScroll := r.mouseScroll
    keyboardActivities := r.keyboardActivities
    navigationHistory := r.navigationHistory
    formInteractions := r.formInteractions
    touchEvents := r.touchEvents
    mediaInteractions := r.mediaInteractions
    windowSizes := r.windowSizes
    visibilityChanges := r.visibilityChanges
    customEvents := r.customEvents }

/-- The `clickDetails` reference held by the `clicks` object of `r`
(dereferencing `results.clicks.clickDetails`). -/
def clickDetailsRef (h : Heap) (r : HResults) : Ref :=
  match hGet h r.clicks with
  | some (.clicksObj _ cd) => cd
  | _ => r.clicks

/-- The `clickCount` held by the `clicks` object of `r`. -/
def clickCountVal (h : Heap) (r : HResults) : Int :=
  match hGet h r.clicks with
  | some (.clicksObj n _) => n
  | _ => 0

/-- The copy of the array cell at `r` (the `getD` fallback never fires on a
well-formed heap/object pair). -/
def arrCopy (h : Heap) (r : Ref) : HCell :=
  (hGet h r).getD (.arr [])

/-- `structuredClone(state.results)` (line 284): a deep copy — every cell
reachable from the object (including the array nested inside the `clicks`
object) is copied into a fresh cell, and the returned object references only
the fresh cells.  All contents are read from the source heap; the fresh cells
are appended in one block, so with `n = h.length` the fresh layout is:
an optional `userInfo` copy at `n` (when the field is not null), then the
`time` copy, the `clickDetails` array copy, the `clicks` object (pointing at
that fresh array copy), and the eleven remaining array copies in field
order. -/
def structuredCloneResults (h : Heap) (r : HResults) : Heap × HResults :=
  let n := h.length
  let tail : List HCell :=
    [arrCopy h r.mouseMovements, arrCopy h r.mouseScroll,
     arrCopy h r.keyboardActivities, arrCopy h r.navigationHistory,
     arrCopy h r.formInteractions, arrCopy h r.touchEvents,
     arrCopy h r.mediaInteractions, arrCopy h r.windowSizes,
     arrCopy h r.visibilityChanges, arrCopy h r.customEvents]
  match r.userInfo with
  | none =>
    (h ++ [(hGet h r.time).getD (.timeObj 0 0 0),
           arrCopy h (clickDetailsRef h r),
           .clicksObj (clickCountVal h r) (n + 1)] ++ tail,
     { userInfo := none
       time := n
       clicks := n + 2
       mouseMovements := n + 3
       mouseScroll := n + 4
       keyboardActivities := n + 5
       navigationHistory := n + 6
       formInteractions := n + 7
       touchEvents := n + 8
       mediaInteractions := n + 9
       windowSizes := n + 10
       visibilityChanges := n + 11
       customEvents := n + 12 })
  | some u =>
    (h ++ [(hGet h u).getD (.timeObj 0 0 0),
           (hGet h r.time).getD (.timeObj 0 0 0),
           arrCopy h (clickDetailsRef h r),
           .clicksObj (clickCountVal h r) (n + 2)] ++ tail,
     { userInfo := some n
       time := n + 1
       clicks := n + 3
       mouseMovements := n + 4
       mouseScroll := n + 5
       keyboardActivities := n + 6
       navigationHistory := n + 7
       formInteractions := n + 8
       touchEvents := n + 9
       mediaInteractions := n + 10
       windowSizes := n + 11
       visibilityChanges := n + 12
       customEvents := n + 13 })

/-- `array.push(e)` through a reference: mutates the cell in place (no-op on
a reference that does not hold an array). -/
def pushEntry (h : Heap) (r : Ref) (e : HEntry) : Heap :=
  match hGet h r with
  | some (.arr es) => hSet h r (.arr (es ++ [e]))
  | _ => h

/-- The contents of the array at `r`. -/
def readArr (h : Heap) (r : Ref) : Option (List HEntry) :=
  match hGet h r with
  | some (.arr es) => some es
  | _ => none

/-- The heap-level result object built by `resetResults` (lines 40-70) on a
given heap: allocates every field's cell fresh. -/
def resetResultsH (env : CaptureEnv) (cfg : Config) (h : Heap) : Heap × HResults :=
  let pInfo : Heap × Option Ref :=
    if cfg.userInfo then
      let p := hAlloc h (.infoObj (captureUserInfo env))
      (p.1, some p.2)
    else (h, none)
  let pTime := hAlloc pInfo.1 (.timeObj 0 0 0)
  let pCd := hAlloc pTime.1 (.arr [])
  let pClicks := hAlloc pCd.1 (.clicksObj 0 pCd.2)
  let pMm := hAlloc pClicks.1 (.arr [])
  let pMs := hAlloc pMm.1 (.arr [])
  let pKa := hAlloc pMs.1 (.arr [])
  let pNh := hAlloc pKa.1 (.arr [])
  let pFi := hAlloc pNh.1 (.arr [])
  let pTe := hAlloc pFi.1 (.arr [])
  let pMi := hAlloc pTe.1 (.arr [])
  let pWs := hAlloc pMi.1 (.arr [])
  let pVc := hAlloc pWs.1 (.arr [])
  let pCe := hAlloc pVc.1 (.arr [])
  (pCe.1,
   { userInfo := pInfo.2
     time := pTime.2
     clicks := pClicks.2
     mouseMovements := pMm.2
     mouseScroll := pMs.2
     keyboardActivities := pKa.2
     navigationHistory := pNh.2
     formInteractions := pFi.2
     touchEvents := pTe.2
     mediaInteractions := pMi.2
     windowSizes := pWs.2
     visibilityChanges := pVc.2
     customEvents := pCe.2 })

/-!
## Theorems
-/

/-- A concrete host environment used by witnesses and counterexamples. -/
def envEx : CaptureEnv :=
  { innerWidth := 800, innerHeight := 600, appCodeName := "m", appName := "n",
    vendor := "v", platform := "p", userAgent := "u", mediaElts := [] }

/-- The same host with one media element present. -/
def envM : CaptureEnv :=
  { envEx with mediaElts := [42] }

theorem processResults_mousePosition (env : CaptureEnv) (t : Int) (s : Sys) :
    (processResults env t s).1.mousePosition = s.mousePosition := by
  unfold processResults
  cases s.results <;> simp <;> split <;> rfl

theorem processResults_intervals (env : CaptureEnv) (t : Int) (s : Sys) :
    (processResults env t s).1.intervals = s.intervals := by
  unfold processResults
  cases s.results <;> simp <;> split <;> rfl

theorem trackMediaElement_proj (e : Nat) (s : Sys) :
    (trackMediaElement e s).config = s.config ∧
    (trackMediaElement e s).active = s.active ∧
    (trackMediaElement e s).intervals = s.intervals ∧
    (trackMediaElement e s).results = s.results ∧
    (trackMediaElement e s).mousePosition = s.mousePosition ∧
    (trackMediaElement e s).winListeners = s.winListeners ∧
    (trackMediaElement e s).listeners = s.listeners := by
  refine ⟨rfl, rfl, rfl, rfl, rfl, rfl, rfl⟩

theorem foldlMedia_proj : ∀ (l : List Nat) (s : Sys),
    ((l.foldl (fun s e => trackMediaElement e s) s).config = s.config ∧
     (l.foldl (fun s e => trackMediaElement e s) s).active = s.active ∧
     (l.foldl (fun s e => trackMediaElement e s) s).intervals = s.intervals ∧
     (l.foldl (fun s e => trackMediaElement e s) s).results = s.results ∧
     (l.foldl (fun s e => trackMediaElement e s) s).mousePosition = s.mousePosition ∧
     (l.foldl (fun s e => trackMediaElement e s) s).winListeners = s.winListeners ∧
     (l.foldl (fun s e => trackMediaElement e s) s).listeners = s.listeners)
  | [], s => ⟨rfl, rfl, rfl, rfl, rfl, rfl, rfl⟩
  | e :: l, s => by
      have ih := foldlMedia_proj l (trackMediaElement e s)
      have h := trackMediaElement_proj e s
      simp only [List.foldl_cons]
      exact ⟨ih.1.trans h.1, ih.2.1.trans h.2.1, ih.2.2.1.trans h.2.2.1,
        ih.2.2.2.1.trans h.2.2.2.1, ih.2.2.2.2.1.trans h.2.2.2.2.1,
        ih.2.2.2.2.2.1.trans h.2.2.2.2.2.1, ih.2.2.2.2.2.2.trans h.2.2.2.2.2.2⟩

theorem addListener_config (s : Sys) (ty : String) (h : Nat) (o : Bool) :
    (addListener s ty h o).config = s.config := rfl

theorem addListener_intervals (s : Sys) (ty : String) (h : Nat) (o : Bool) :
    (addListener s ty h o).intervals = s.intervals := rfl

theorem addListener_results (s : Sys) (ty : String) (h : Nat) (o : Bool) :
    (addListener s ty h o).results = s.results := rfl

theorem addListener_mousePosition (s : Sys) (ty : String) (h : Nat) (o : Bool) :
    (addListener s ty h o).mousePosition = s.mousePosition := rfl

theorem foldlMedia_config (l : List Nat) (s : Sys) :
    (l.foldl (fun s e => trackMediaElement e s) s).config = s.config :=
  (foldlMedia_proj l s).1

theorem foldlMedia_intervals (l : List Nat) (s : Sys) :
    (l.foldl (fun s e => trackMediaElement e s) s).intervals = s.intervals :=
  (foldlMedia_proj l s).2.2.1

theorem foldlMedia_results (l : List Nat) (s : Sys) :
    (l.foldl (fun s e => trackMediaElement e s) s).results = s.results :=
  (foldlMedia_proj l s).2.2.2.1

theorem foldlMedia_mousePosition (l : List Nat) (s : Sys) :
    (l.foldl (fun s e => trackMediaElement e s) s).mousePosition = s.mousePosition :=
  (foldlMedia_proj l s).2.2.2.2.1

theorem startRemainingListeners_proj (env : CaptureEnv) (s : Sys) :
    (startRemainingListeners env s).config = s.config ∧
    (startRemainingListeners env s).intervals = s.intervals ∧
    (startRemainingListeners env s).results = s.results ∧
    (startRemainingListeners env s).mousePosition = s.mousePosition := by
  simp only [startRemainingListeners, apply_ite Sys.config, apply_ite Sys.intervals,
    apply_ite Sys.results, apply_ite Sys.mousePosition, addListener_config,
    addListener_intervals, addListener_results, addListener_mousePosition,
    foldlMedia_config, foldlMedia_intervals, foldlMedia_results,
    foldlMedia_mousePosition, ite_self]
  trivial

theorem startSimpleListeners_proj (s : Sys) :
    (startSimpleListeners s).config = s.config ∧
    (startSimpleListeners s).intervals = s.intervals ∧
    (startSimpleListeners s).results = s.results ∧
    (startSimpleListeners s).mousePosition = s.mousePosition := by
  simp only [startSimpleListeners, apply_ite Sys.config, apply_ite Sys.intervals,
    apply_ite Sys.results, apply_ite Sys.mousePosition, addListener_config,
    addListener_intervals, addListener_results, addListener_mousePosition, ite_self]
  trivial

theorem startPageNavigation_proj (s : Sys) :
    (startPageNavigation s).config = s.config ∧
    (startPageNavigation s).intervals = s.intervals ∧
    (startPageNavigation s).results = s.results ∧
    (startPageNavigation s).mousePosition = s.mousePosition := by
  simp only [startPageNavigation, apply_ite Sys.config, apply_ite Sys.intervals,
    apply_ite Sys.results, apply_ite Sys.mousePosition, addListener_config,
    addListener_intervals, addListener_results, addListener_mousePosition, ite_self]
  trivial

theorem startMouseMovement_proj (s : Sys) :
    (startMouseMovement s).config = s.config ∧
    (startMouseMovement s).results = s.results ∧
    (startMouseMovement s).mousePosition = s.mousePosition := by
  simp only [startMouseMovement, apply_ite Sys.config, apply_ite Sys.results,
    apply_ite Sys.mousePosition, addListener_config, addListener_results,
    addListener_mousePosition, ite_self]
  trivial

theorem startFlusher_proj (s : Sys) :
    (startFlusher s).config = s.config ∧
    (startFlusher s).results = s.results ∧
    (startFlusher s).mousePosition = s.mousePosition := by
  simp only [startFlusher, apply_ite Sys.config, apply_ite Sys.results,
    apply_ite Sys.mousePosition, ite_self]
  trivial

theorem start_mousePosition (env : CaptureEnv) (t : Int) (s : Sys) :
    (start env t s).mousePosition = s.mousePosition := by
  unfold start
  split
  · rfl
  · exact (startFlusher_proj _).2.2.trans ((startRemainingListeners_proj _ _).2.2.2.trans
      ((startPageNavigation_proj _).2.2.2.trans ((startSimpleListeners_proj _).2.2.2.trans
        (startMouseMovement_proj _).2.2)))

theorem stopTeardown_mousePosition (t : Int) (s : Sys) :
    (stopTeardown t s).mousePosition = s.mousePosition := rfl

theorem stop_mousePosition (env : CaptureEnv) (t : Int) (s : Sys) :
    (stop env t s).1.mousePosition = s.mousePosition := by
  unfold stop
  split
  · exact (processResults_mousePosition _ _ _).trans (stopTeardown_mousePosition _ _)
  · rfl

/-- C4: with `clearAfterProcess = true` and `userInfo = true`, one run of
`processResults()` leaves a buffer whose `userInfo` equals the pre-flush
value while every event sequence is empty and `clickCount` is `0`.
(`Object.assign(state.results, {userInfo: ...})` on line 260 overwrites the
freshly captured record with the preserved one.) -/
theorem C4_flush_preserves_userInfo (env : CaptureEnv) (t : Int) (s : Sys) (r : Results)
    (hclear : s.config.clearAfterProcess = true) (hinfo : s.config.userInfo = true)
    (hr : s.results = some r) :
    ∃ r', (processResults env t s).1.results = some r' ∧
      r'.userInfo = r.userInfo ∧
      r'.clicks.clickCount = 0 ∧ r'.clicks.clickDetails = [] ∧
      r'.mouseMovements = [] ∧ r'.mouseScroll = [] ∧ r'.keyboardActivities = [] ∧
      r'.navigationHistory = [] ∧ r'.formInteractions = [] ∧ r'.touchEvents = [] ∧
      r'.mediaInteractions = [] ∧ r'.windowSizes = [] ∧ r'.visibilityChanges = [] ∧
      r'.customEvents = [] := by
  simp [processResults, hr, hclear, hinfo, resetResults]

/-- The engine state after `start()` at time 1 from the initial state. -/
def sC4 : Sys := start envEx 1 initialSys

/-- The buffer `sC4` holds. -/
def rC4 : Results :=
  { resetResults envEx DEFAULT_CONFIG with
      time := { startTime := 1, currentTime := 0, stopTime := 0 } }

theorem C4_witness :
    ∃ r', (processResults envEx 5 sC4).1.results = some r' ∧
      r'.userInfo = rC4.userInfo ∧
      r'.clicks.clickCount = 0 ∧ r'.clicks.clickDetails = [] ∧
      r'.mouseMovements = [] ∧ r'.mouseScroll = [] ∧ r'.keyboardActivities = [] ∧
      r'.navigationHistory = [] ∧ r'.formInteractions = [] ∧ r'.touchEvents = [] ∧
      r'.mediaInteractions = [] ∧ r'.windowSizes = [] ∧ r'.visibilityChanges = [] ∧
      r'.customEvents = [] :=
  C4_flush_preserves_userInfo envEx 5 sC4 rC4 rfl rfl rfl

/-- C3: the sampling-tick dedup.  (i) With no cached raw sample the tick
records nothing.  (ii) Two consecutive ticks between which the cached sample
keeps the same x and y coordinates append the coordinate once.  (iii) If the
second tick sees a sample whose x or y differs, both are appended. -/
theorem C3_mouse_dedup :
    (∀ s : Sys, s.mousePosition = none → mouseTick s = s) ∧
    (∀ (s : Sys) (r : Results) (p p2 : Int × Int × Int),
      s.results = some r → s.mousePosition = some p →
      tickGuard p r.mouseMovements = true →
      p2.1 = p.1 → p2.2.1 = p.2.1 →
      ((mouseTick { mouseTick s with mousePosition := some p2 }).results.map
        Results.mouseMovements) = some (r.mouseMovements ++ [p])) ∧
    (∀ (s : Sys) (r : Results) (p p2 : Int × Int × Int),
      s.results = some r → s.mousePosition = some p →
      tickGuard p r.mouseMovements = true →
      (p2.1 ≠ p.1 ∨ p2.2.1 ≠ p.2.1) →
      ((mouseTick { mouseTick s with mousePosition := some p2 }).results.map
        Results.mouseMovements) = some (r.mouseMovements ++ [p, p2])) := by
  refine ⟨?_, ?_, ?_⟩
  · intro s hp
    unfold mouseTick
    rw [hp]
    cases s.results <;> rfl
  · intro s r p p2 hr hp hg hx hy
    simp only [mouseTick, hr, hp, hg, if_true]
    simp [tickGuard, List.getLast?_concat, hx, hy]
  · intro s r p p2 hr hp hg hne
    simp only [mouseTick, hr, hp, hg, if_true]
    have hguard2 : tickGuard p2 (r.mouseMovements ++ [p]) = true := by
      simp [tickGuard, List.getLast?_concat]
      rcases hne with h | h
      · exact Or.inl fun hxx => h hxx.symm
      · exact Or.inr fun hyy => h hyy.symm
    simp [hguard2]

/-- A mid-session state used by the C3 witness: fresh buffer, cached raw
sample (1, 2, 3). -/
def sC3 : Sys :=
  { initialSys with
      results := some (resetResults envEx DEFAULT_CONFIG)
      mousePosition := some (1, 2, 3) }

theorem C3_witness :
    ((mouseTick { mouseTick sC3 with mousePosition := some (1, 2, 9) }).results.map
      Results.mouseMovements) = some [(1, 2, 3)] :=
  C3_mouse_dedup.2.1 sC3 (resetResults envEx DEFAULT_CONFIG) (1, 2, 3) (1, 2, 9)
    rfl rfl (by decide) rfl rfl

/-- Index-threshold filter over an enumeration: keeping exactly the entries
with index below `k` yields the map over the clamped-length front of the
list. -/
theorem enumFrom_filterMap_lt {α β : Type} (f : α → β) (k : Int) :
    ∀ (xs : List α) (n : Nat),
      ((List.enumFrom n xs).filterMap fun ie =>
        if (ie.1 : Int) ≥ k then none else some (f ie.2))
      = (xs.take (k - n).toNat).map f
  | [], n => by simp
  | x :: xs, n => by
    rw [List.enumFrom_cons, List.filterMap_cons]
    by_cases h : (n : Int) ≥ k
    · have h0 : (k - (n : Int)).toNat = 0 := by omega
      rw [if_pos h, enumFrom_filterMap_lt f k xs (n + 1)]
      have h1 : (k - ((n : Int) + 1)).toNat = 0 := by omega
      simp [h0, h1]
    · have h0 : (k - (n : Int)).toNat = (k - ((n : Int) + 1)).toNat + 1 := by omega
      rw [if_neg h, enumFrom_filterMap_lt f k xs (n + 1)]
      simp [h0]

/-- C9: `handleClick` is total (it raises no fault on any propagation path),
appends exactly one record to `clickDetails`, and the path string of that
record is built from exactly `max 0 (n - 2)` entries, where `n` is the length
of the propagation path — the unconditional trim of the last two entries is
clamped at zero rather than faulting on short paths. -/
theorem C9_click_path_clamped (e : ClickEvent) (r : Results) :
    (handleClick e r).clicks.clickCount = r.clicks.clickCount + 1 ∧
    (handleClick e r).clicks.clickDetails
      = r.clicks.clickDetails ++ [(e.clientX, e.clientY,
          String.intercalate " > " (clickPathParts e.composedPath).reverse, e.ts)] ∧
    ((clickPathParts e.composedPath).length : Int)
      = max 0 ((e.composedPath.length : Int) - 2) := by
  refine ⟨rfl, rfl, ?_⟩
  have h : clickPathParts e.composedPath
      = (e.composedPath.take ((e.composedPath.length : Int) - 2).toNat).map nodeStr := by
    have := enumFrom_filterMap_lt nodeStr ((e.composedPath.length : Int) - 2) e.composedPath 0
    simpa [clickPathParts, List.enum] using this
  rw [h, List.length_map, List.length_take]
  omega

/-- C10: neither `stop()` nor `start()` clears the cached raw sample
`state.mousePosition`; consequently in the concrete run
start, mousemove at time 2, stop, start at time 5, first sampling tick,
the second session's buffer holds the stale sample (10, 20, 2), whose
timestamp 2 precedes the new session's `startTime` 5. -/
theorem C10_stale_sample_crosses_sessions :
    (∀ (env : CaptureEnv) (t : Int) (s : Sys), (stop env t s).1.mousePosition = s.mousePosition) ∧
    (∀ (env : CaptureEnv) (t : Int) (s : Sys), (start env t s).mousePosition = s.mousePosition) ∧
    ((run envEx initialSys
        [(1, .opStart), (2, .mouseMove 10 20), (3, .opStop), (5, .opStart), (6, .tick)]).1.results.map
          Results.mouseMovements = some [(10, 20, 2)] ∧
     (run envEx initialSys
        [(1, .opStart), (2, .mouseMove 10 20), (3, .opStop), (5, .opStart), (6, .tick)]).1.results.map
          (fun r => r.time.startTime) = some 5 ∧
     (2 : Int) < 5) :=
  ⟨stop_mousePosition, start_mousePosition, by decide, by decide, by decide⟩

theorem hasFlusher_append_sampler (l : List IntervalKind) (p : Int) :
    hasFlusher (l ++ [.sampler p]) = hasFlusher l := by
  simp [hasFlusher, List.any_append]

theorem startMouseMovement_hasFlusher (s : Sys) :
    hasFlusher (startMouseMovement s).intervals = hasFlusher s.intervals := by
  unfold startMouseMovement
  split
  · show hasFlusher (s.intervals ++ [.sampler (s.config.mouseMovementInterval * 1000)])
        = hasFlusher s.intervals
    exact hasFlusher_append_sampler _ _
  · rfl

theorem mouseTick_intervals (s : Sys) : (mouseTick s).intervals = s.intervals := by
  unfold mouseTick
  cases s.results <;> cases s.mousePosition <;> simp <;> split <;> rfl

theorem stopTeardown_intervals (t : Int) (s : Sys) : (stopTeardown t s).intervals = [] := rfl

/-- C7 (amended): `start()` arms no periodic flusher exactly when
`config.processTime` is 0 (the truthiness test on line 217) — negative values
still arm one, see the counterexample — and while no flusher is armed no
engine operation arms one, and a timer-flush occurrence with no flusher armed
is a no-op that delivers nothing to the consumer. -/
theorem C7_processTime_zero_no_flush :
    (∀ (env : CaptureEnv) (t : Int) (s : Sys), s.active = false →
      s.config.processTime = 0 → hasFlusher s.intervals = false →
      hasFlusher (start env t s).intervals = false) ∧
    (∀ (env : CaptureEnv) (u : Int) (op : Op) (s : Sys), s.active = true →
      hasFlusher s.intervals = false →
      hasFlusher (step env u op s).1.intervals = false) ∧
    (∀ (env : CaptureEnv) (u : Int) (s : Sys), hasFlusher s.intervals = false →
      step env u Op.timerFlush s = (s, [])) := by
  refine ⟨?_, ?_, ?_⟩
  · intro env t s hidle h0 hno
    unfold start
    rw [hidle]
    simp only [Bool.false_eq_true, if_false]
    have hcfg : (startRemainingListeners env (startPageNavigation (startSimpleListeners
        (startMouseMovement (startActivate env t s))))).config = s.config := by
      rw [(startRemainingListeners_proj _ _).1, (startPageNavigation_proj _).1,
        (startSimpleListeners_proj _).1, (startMouseMovement_proj _).1]
      rfl
    have hint : hasFlusher (startRemainingListeners env (startPageNavigation
        (startSimpleListeners (startMouseMovement (startActivate env t s))))).intervals
        = false := by
      rw [(startRemainingListeners_proj _ _).2.1, (startPageNavigation_proj _).2.1,
        (startSimpleListeners_proj _).2.1, startMouseMovement_hasFlusher]
      exact hno
    unfold startFlusher
    rw [hcfg, h0]
    simp [hint]
  · intro env u op s hact hno
    cases op with
    | opStart => simp only [step, start, hact, if_true]; exact hno
    | opStop =>
        simp only [step, stop, hact, if_true]
        rw [processResults_intervals, stopTeardown_intervals]
        rfl
    | flushCall => simp only [step]; rw [processResults_intervals]; exact hno
    | timerFlush => simp only [step, hno, Bool.false_eq_true, if_false]
    | tick =>
        simp only [step]
        split
        · rw [mouseTick_intervals]; exact hno
        · exact hno
    | mouseMove x y => simp only [step]; split <;> exact hno
    | click cx cy path => simp only [step]; split <;> exact hno
    | keydown k => simp only [step]; split <;> exact hno
    | scroll x y => simp only [step]; split <;> exact hno
    | setConfig c => exact hno
  · intro env u s hno
    simp [step, hno]

/-- An idle state whose configuration sets `processTime := 0`. -/
def sZeroPT : Sys := { initialSys with config := { DEFAULT_CONFIG with processTime := 0 } }

theorem C7_witness :
    hasFlusher (start envEx 4 sZeroPT).intervals = false :=
  C7_processTime_zero_no_flush.1 envEx 4 sZeroPT rfl rfl rfl

/-- An idle state whose configuration sets `processTime := -1`. -/
def sNegPT : Sys := { initialSys with config := { DEFAULT_CONFIG with processTime := -1 } }

/-- C7 counterexample: with `processTime = -1` — a number ≤ 0 — `start()`
DOES arm a periodic flusher (the truthy test on line 217 only excludes 0),
and a firing of that timer delivers a snapshot to the consumer callback. -/
theorem C7_counterexample :
    hasFlusher (start envEx 0 sNegPT).intervals = true ∧
    ((step envEx 1 Op.timerFlush (start envEx 0 sNegPT)).2.map Prod.fst) = [0] :=
  ⟨by decide, by decide⟩

/-- C8 (amended): `config()` during an Active session replaces only the
stored configuration — it does not mutate the session's captured data,
registries, armed intervals, host listeners or history patches — but the
replacement is visible to the rest of the session: any later flush reads the
NEW configuration, delivering to its `processData` callback (and using its
`clearAfterProcess`/`userInfo`), so flush behaviour is not determined by the
configuration in force at `start()`. -/
theorem C8_config_swap_effective :
    (∀ (c : Config) (s : Sys),
      (config c s).config = c ∧
      (config c s).active = s.active ∧ (config c s).results = s.results ∧
      (config c s).listeners = s.listeners ∧ (config c s).intervals = s.intervals ∧
      (config c s).mediaElements = s.mediaElements ∧
      (config c s).winListeners = s.winListeners ∧
      (config c s).elemListeners = s.elemListeners ∧
      (config c s).mousePosition = s.mousePosition ∧
      (config c s).pushStateImpl = s.pushStateImpl ∧
      (config c s).replaceStateImpl = s.replaceStateImpl) ∧
    (∀ (c : Config) (env : CaptureEnv) (t : Int) (s : Sys) (r : Results),
      s.results = some r →
      ((processResults env t (config c s)).2.map Prod.fst) = [c.processData]) := by
  refine ⟨fun c s => ⟨rfl, rfl, rfl, rfl, rfl, rfl, rfl, rfl, rfl, rfl, rfl⟩, ?_⟩
  intro c env t s r hr
  simp only [processResults, config, hr]
  split <;> rfl

/-- The configuration a mid-session `config()` call swaps in: a different
consumer callback and `clearAfterProcess` off. -/
def cfgAlt : Config := { DEFAULT_CONFIG with processData := 1, clearAfterProcess := false }

theorem C8_witness :
    ((processResults envEx 5 (config cfgAlt sC4)).2.map Prod.fst) = [cfgAlt.processData] :=
  C8_config_swap_effective.2 cfgAlt envEx 5 sC4 rC4 rfl

/-- C8 counterexample: a session started under the default configuration
(callback 0, `clearAfterProcess = true`); calling `config()` mid-session and
then flushing delivers the snapshot to callback 1 and skips the clear —
the session's flush behaviour followed the new configuration, not the one in
force at `start()`. -/
theorem C8_counterexample :
    (start envEx 0 initialSys).active = true ∧
    (start envEx 0 initialSys).config.processData = 0 ∧
    (start envEx 0 initialSys).config.clearAfterProcess = true ∧
    ((processResults envEx 5 (config cfgAlt (start envEx 0 initialSys))).2.map Prod.fst) = [1] ∧
    (processResults envEx 5 (config cfgAlt (start envEx 0 initialSys))).1.results
      = some { rC4 with time := { rC4.time with startTime := 0, currentTime := 5 } } :=
  ⟨by decide, by decide, by decide, by decide, by decide⟩

/-- C2 (amended): faults are NOT contained by the engine — a raising consumer
callback makes `processResults` itself raise to its caller (with the
`currentTime` stamp applied and the clear-after-process step skipped), and a
custom event fired before the first `start()` raises a `TypeError` from the
wrapper (the buffer is still null) without recording anything; a raising user
handler propagates after its record was appended.  What survives is the
scheduler: a raising consumer callback leaves the armed interval set (and all
listener registries) untouched, so the periodic flush timer keeps firing. -/
theorem C2_faults_propagate_scheduler_survives :
    (∀ (throwing : Nat → Bool) (env : CaptureEnv) (t : Int) (s : Sys) (r : Results),
      s.results = some r → throwing s.config.processData = true →
      (processResultsE throwing env t s).2 = Except.error JsError.handlerError ∧
      (processResultsE throwing env t s).1.intervals = s.intervals ∧
      (processResultsE throwing env t s).1.winListeners = s.winListeners ∧
      (processResultsE throwing env t s).1.listeners = s.listeners) ∧
    (∀ (u : Bool) (n : String) (d t : Int) (s : Sys), s.results = none →
      fireCustomEventE u n d t s = (s, Except.error JsError.typeError)) ∧
    (∀ (n : String) (d t : Int) (s : Sys) (r : Results), s.results = some r →
      (fireCustomEventE true n d t s).2 = Except.error JsError.handlerError ∧
      (fireCustomEventE true n d t s).1.results
        = some { r with customEvents := r.customEvents ++
            [{ eventName := n, details := d, timestamp := t }] }) := by
  refine ⟨?_, ?_, ?_⟩
  · intro throwing env t s r hr hthrow
    refine ⟨?_, ?_, ?_, ?_⟩ <;> simp [processResultsE, hr, hthrow]
  · intro u n d t s hnone
    simp [fireCustomEventE, hnone]
  · intro n d t s r hr
    exact ⟨by simp [fireCustomEventE, hr], by simp [fireCustomEventE, hr]⟩

/-- The state after `start()` at time 0, used by the C2 witness and
counterexample. -/
def sC2 : Sys := start envEx 0 initialSys

theorem C2_witness :
    (processResultsE (fun _ => true) envEx 1 sC2).2 = Except.error JsError.handlerError ∧
    (processResultsE (fun _ => true) envEx 1 sC2).1.intervals = sC2.intervals ∧
    (processResultsE (fun _ => true) envEx 1 sC2).1.winListeners = sC2.winListeners ∧
    (processResultsE (fun _ => true) envEx 1 sC2).1.listeners = sC2.listeners :=
  C2_faults_propagate_scheduler_survives.1 (fun _ => true) envEx 1 sC2
    { rC4 with time := { rC4.time with startTime := 0 } } rfl rfl

/-- C2 counterexample: a raising consumer callback escapes `processResults`
uncaught (the engine has no `try`/`catch`), and a custom event registered and
fired before the first `start()` raises a `TypeError` out of the wrapper —
both contradict "contained by the engine". -/
theorem C2_counterexample :
    (processResultsE (fun _ => true) envEx 1 sC2).2 = Except.error JsError.handlerError ∧
    (fireCustomEventE false "evt" 0 1 (registerCustomEvent "evt" 100 initialSys)).2
      = Except.error JsError.typeError :=
  ⟨rfl, rfl⟩

/-- The state after `start()` under the default configuration with one media
element present. -/
def sC6 : Sys := start envM 0 initialSys

/-- C6 evaluated at the failing input (default configuration, so
`pageNavigation` enabled): after `stop()` the interval set is empty — and was
already empty in the teardown state handed to the final flush — both
registries are drained, every media-element listener is detached, both
history methods are restored, the delivered final snapshot carries the stop
stamp, and exactly one flush is delivered.  BUT the `window` listener set is
NOT empty: the nav handler was registered under four event types while the
registry, keyed by handler identity, kept only the last (`locationchange`),
so `stop()` leaves the `popstate`, `pushstate` and `replacestate`
subscriptions attached — the claimed "every registered window listener is
detached" fails. -/
theorem C6_stop_leaves_nav_listeners :
    (stopTeardown 3 sC6).intervals = [] ∧
    (stop envM 3 sC6).1.listeners = [] ∧
    (stop envM 3 sC6).1.intervals = [] ∧
    (stop envM 3 sC6).1.mediaElements = [] ∧
    (stop envM 3 sC6).1.elemListeners = [] ∧
    (stop envM 3 sC6).1.pushStateImpl = HMethod.original ∧
    (stop envM 3 sC6).1.replaceStateImpl = HMethod.original ∧
    ((stop envM 3 sC6).2.map fun d => d.2.time.stopTime) = [3] ∧
    (stop envM 3 sC6).2.length = 1 ∧
    (stop envM 3 sC6).1.winListeners
      = [("popstate", navHandlerId), ("pushstate", navHandlerId), ("replacestate", navHandlerId)] :=
  ⟨by decide, by decide, by decide, by decide, by decide, by decide, by decide,
   by decide, by decide, by decide⟩

/-- The session invariant for C5: while active the buffer exists, and every
existing buffer's `startTime` is bounded by the clock — `startTime` is either
a past `Date.now()` reading (stamped by `start()`) or `0` (left by a clearing
flush). -/
def Inv (t : Int) (s : Sys) : Prop :=
  (s.active = true → (s.results).isSome = true) ∧
  ∀ r, s.results = some r → r.time.startTime ≤ t

theorem Inv_mono {t u : Int} {s : Sys} (htu : t ≤ u) (h : Inv t s) : Inv u s :=
  ⟨h.1, fun r hr => le_trans (h.2 r hr) htu⟩

theorem Inv_map_update {u : Int} {s : Sys} (f : Results → Results)
    (hf : ∀ r, (f r).time.startTime = r.time.startTime)
    (h : Inv u s) : Inv u { s with results := s.results.map f } := by
  constructor
  · intro ha
    have := h.1 ha
    cases hs : s.results with
    | none => rw [hs] at this; exact absurd this (by simp)
    | some r => simp [hs]
  · intro r' hr'
    cases hs : s.results with
    | none => rw [hs] at hr'; exact absurd hr' (by simp)
    | some r =>
        rw [hs] at hr'
        simp only [Option.map_some'] at hr'
        have : f r = r' := by injection hr'
        rw [← this, hf]
        exact h.2 r hs

theorem start_results_of_idle (env : CaptureEnv) (u : Int) (s : Sys)
    (hidle : s.active = false) :
    (start env u s).results = some { resetResults env s.config with
      time := { startTime := u, currentTime := 0, stopTime := 0 } } := by
  unfold start
  rw [hidle]
  simp only [Bool.false_eq_true, if_false]
  rw [(startFlusher_proj _).2.1, (startRemainingListeners_proj _ _).2.2.1,
    (startPageNavigation_proj _).2.2.1, (startSimpleListeners_proj _).2.2.1,
    (startMouseMovement_proj _).2.1]
  rfl

theorem stopTeardown_results (t : Int) (s : Sys) :
    (stopTeardown t s).results
      = s.results.map fun r => { r with time := { r.time with stopTime := t } } := rfl

theorem processResults_inv (env : CaptureEnv) (u : Int) (s : Sys)
    (h0 : 0 ≤ u) (h : Inv u s) : Inv u (processResults env u s).1 := by
  cases hs : s.results with
  | none =>
      have heq : (processResults env u s).1 = s := by unfold processResults; rw [hs]
      rw [heq]; exact h
  | some r =>
      have hst := h.2 r hs
      unfold processResults
      rw [hs]
      simp only
      split
      · refine ⟨fun _ => rfl, fun r' hr' => ?_⟩
        simp only [Option.some.injEq] at hr'
        rw [← hr']
        have : ((if s.config.userInfo = true then
            { resetResults env s.config with
                userInfo := { r with time := { r.time with currentTime := u } }.userInfo }
          else resetResults env s.config)).time.startTime = 0 := by
          split <;> rfl
        rw [this]
        exact h0
      · refine ⟨fun _ => rfl, fun r' hr' => ?_⟩
        simp only [Option.some.injEq] at hr'
        rw [← hr']
        exact hst

theorem mouseTick_shape (s : Sys) :
    mouseTick s = s ∨ ∃ r p, s.results = some r ∧
      mouseTick s = { s with results := some { r with mouseMovements := r.mouseMovements ++ [p] } } := by
  rcases hs : s.results with _ | r <;> rcases hp : s.mousePosition with _ | p
  · left; unfold mouseTick; rw [hs, hp]
  · left; unfold mouseTick; rw [hs, hp]
  · left; unfold mouseTick; rw [hs, hp]
  · by_cases hg : tickGuard p r.mouseMovements = true
    · right
      exact ⟨r, p, rfl, by unfold mouseTick; rw [hs, hp]; simp [hg]⟩
    · left
      unfold mouseTick; rw [hs, hp]; simp [hg]

theorem mouseTick_inv {u : Int} {s : Sys} (h : Inv u s) : Inv u (mouseTick s) := by
  rcases mouseTick_shape s with heq | ⟨r, p, hs, heq⟩
  · rw [heq]; exact h
  · rw [heq]
    refine ⟨fun _ => rfl, fun r' hr' => ?_⟩
    simp only [Option.some.injEq] at hr'
    rw [← hr']
    exact h.2 r hs

theorem step_inv (env : CaptureEnv) (u : Int) (op : Op) (s : Sys)
    (h0 : 0 ≤ u) (h : Inv u s) : Inv u (step env u op s).1 := by
  cases op with
  | opStart =>
      show Inv u (start env u s)
      by_cases ha : s.active = true
      · have heq : start env u s = s := by unfold start; rw [ha]; simp
        rw [heq]; exact h
      · have hidle : s.active = false := by revert ha; cases s.active <;> simp
        have hres := start_results_of_idle env u s hidle
        refine ⟨fun _ => ?_, fun r hr => ?_⟩
        · rw [hres]; rfl
        · rw [hres] at hr
          simp only [Option.some.injEq] at hr
          rw [← hr]
  | opStop =>
      show Inv u (stop env u s).1
      unfold stop
      by_cases ha : s.active = true
      · rw [ha]
        simp only [if_true]
        refine processResults_inv env u _ h0 ?_
        constructor
        · intro hact
          exact absurd hact (by rw [show (stopTeardown u s).active = false from rfl]; simp)
        · intro r hr
          rw [stopTeardown_results] at hr
          cases hs : s.results with
          | none => rw [hs] at hr; exact absurd hr (by simp)
          | some r0 =>
              rw [hs] at hr
              simp only [Option.map_some', Option.some.injEq] at hr
              rw [← hr]
              exact h.2 r0 hs
      · have hidle : s.active = false := by revert ha; cases s.active <;> simp
        rw [hidle]
        simpa using h
  | flushCall => exact processResults_inv env u s h0 h
  | timerFlush =>
      show Inv u (if hasFlusher s.intervals then processResults env u s else (s, [])).1
      split
      · exact processResults_inv env u s h0 h
      · exact h
  | tick =>
      show Inv u (if hasSampler s.intervals then mouseTick s else s)
      split
      · exact mouseTick_inv h
      · exact h
  | mouseMove x y =>
      show Inv u (if _ ∈ s.winListeners then handleMouseMove x y u s else s)
      split
      · exact ⟨h.1, h.2⟩
      · exact h
  | click cx cy path =>
      show Inv u (if _ ∈ s.winListeners then
        { s with results := s.results.map (handleClick _) } else s)
      split
      · exact Inv_map_update _ (fun r => rfl) h
      · exact h
  | keydown k =>
      show Inv u (if _ ∈ s.winListeners then
        { s with results := s.results.map _ } else s)
      split
      · exact Inv_map_update _ (fun r => rfl) h
      · exact h
  | scroll x y =>
      show Inv u (if _ ∈ s.winListeners then
        { s with results := s.results.map _ } else s)
      split
      · exact Inv_map_update _ (fun r => rfl) h
      · exact h
  | setConfig c => exact h

theorem run_inv (env : CaptureEnv) :
    ∀ (tr : List (Int × Op)) (t : Int) (s : Sys),
      0 ≤ t → Inv t s → mono t tr = true →
      Inv (lastTime t tr) (run env s tr).1 ∧ t ≤ lastTime t tr ∧ 0 ≤ lastTime t tr
  | [], t, s, h0, hinv, _ => ⟨hinv, le_refl t, h0⟩
  | (u, op) :: rest, t, s, h0, hinv, hm => by
      have hm' : (decide (t ≤ u) && mono u rest) = true := hm
      rw [Bool.and_eq_true, decide_eq_true_eq] at hm'
      have h0u : 0 ≤ u := le_trans h0 hm'.1
      have hstep := step_inv env u op s h0u (Inv_mono hm'.1 hinv)
      have ih := run_inv env rest u (step env u op s).1 h0u hstep hm'.2
      exact ⟨ih.1, le_trans hm'.1 ih.2.1, ih.2.2⟩

theorem mono_append :
    ∀ (tr : List (Int × Op)) (t : Int) (x : Int × Op),
      mono t (tr ++ [x]) = true → mono t tr = true ∧ lastTime t tr ≤ x.1
  | [], t, x, h => by
      have h' : (decide (t ≤ x.1) && mono x.1 []) = true := h
      rw [Bool.and_eq_true, decide_eq_true_eq] at h'
      exact ⟨rfl, h'.1⟩
  | (u, op) :: rest, t, x, h => by
      have h' : (decide (t ≤ u) && mono u (rest ++ [x])) = true := h
      rw [Bool.and_eq_true, decide_eq_true_eq] at h'
      have ih := mono_append rest u x h'.2
      constructor
      · show (decide (t ≤ u) && mono u rest) = true
        rw [Bool.and_eq_true, decide_eq_true_eq]
        exact ⟨h'.1, ih.1⟩
      · exact ih.2

/-- C5: for every session — any monotonically timed trace of operations from
the initial state that leaves the engine Active — a final `stop()` at a later
time delivers exactly one snapshot, and that snapshot satisfies
`startTime ≤ stopTime ≤ currentTime`; this covers sessions with intermediate
clearing flushes, which reset `startTime` to 0 (and `Date.now()` readings are
non-negative, hence the lower clock bound 0 on traces). -/
theorem C5_stop_time_window (env : CaptureEnv) (tr : List (Int × Op)) (t1 : Int)
    (hmono : mono 0 (tr ++ [(t1, Op.opStop)]) = true)
    (hactive : (run env initialSys tr).1.active = true) :
    ∃ d : Nat × Results,
      (step env t1 Op.opStop (run env initialSys tr).1).2 = [d] ∧
      d.2.time.startTime ≤ d.2.time.stopTime ∧
      d.2.time.stopTime ≤ d.2.time.currentTime := by
  obtain ⟨hm, hlast⟩ := mono_append tr 0 (t1, Op.opStop) hmono
  have hinv0 : Inv 0 initialSys := by
    constructor
    · intro ha; exact absurd ha (by simp [initialSys])
    · intro r hr; exact absurd hr (by simp [initialSys])
  obtain ⟨hinv, hle, h0l⟩ := run_inv env tr 0 initialSys (le_refl 0) hinv0 hm
  have h0t1 : (0 : Int) ≤ t1 := le_trans h0l hlast
  obtain ⟨r, hr⟩ := Option.isSome_iff_exists.mp (hinv.1 hactive)
  have hst : r.time.startTime ≤ t1 := le_trans (hinv.2 r hr) hlast
  show ∃ d, (stop env t1 (run env initialSys tr).1).2 = [d] ∧ _
  unfold stop
  rw [hactive]
  simp only [if_true]
  have hr2 : (stopTeardown t1 (run env initialSys tr).1).results
      = some { r with time := { r.time with stopTime := t1 } } := by
    rw [stopTeardown_results, hr]
    rfl
  unfold processResults
  rw [hr2]
  simp only
  split
  · exact ⟨_, rfl, hst, le_refl t1⟩
  · exact ⟨_, rfl, hst, le_refl t1⟩

theorem C5_witness :
    ∃ d : Nat × Results,
      (step envEx 3 Op.opStop (run envEx initialSys [(1, Op.opStart), (2, Op.flushCall)]).1).2
        = [d] ∧
      d.2.time.startTime ≤ d.2.time.stopTime ∧
      d.2.time.stopTime ≤ d.2.time.currentTime :=
  C5_stop_time_window envEx [(1, Op.opStart), (2, Op.flushCall)] 3 (by decide) (by decide)

theorem hGet_append_lt (h l : Heap) (i : Nat) (hi : i < h.length) :
    hGet (h ++ l) i = hGet h i := by
  unfold hGet
  exact List.get?_append hi

theorem hGet_hSet_ne (h : Heap) (a b : Ref) (c : HCell) (hab : a ≠ b) :
    hGet (hSet h a c) b = hGet h b := by
  unfold hGet hSet
  exact List.get?_set_ne c h hab

theorem readArr_pushEntry_ne (h : Heap) (a b : Ref) (e : HEntry) (hab : a ≠ b) :
    readArr (pushEntry h a e) b = readArr h b := by
  cases hc : hGet h a with
  | none => unfold pushEntry; rw [hc]
  | some c =>
      cases c with
      | arr es =>
          unfold pushEntry
          rw [hc]
          unfold readArr
          rw [hGet_hSet_ne h a b _ hab]
      | clicksObj n cd => unfold pushEntry; rw [hc]
      | timeObj x y z => unfold pushEntry; rw [hc]
      | infoObj u => unfold pushEntry; rw [hc]

theorem readArr_some (h : Heap) (a : Ref) (es : List HEntry)
    (hr : readArr h a = some es) : hGet h a = some (.arr es) := by
  unfold readArr at hr
  cases hc : hGet h a with
  | none => rw [hc] at hr; cases hr
  | some c =>
      cases c with
      | arr es2 =>
          rw [hc] at hr
          simp only [Option.some.injEq] at hr
          rw [hr]
      | clicksObj n cd => rw [hc] at hr; cases hr
      | timeObj x y z => rw [hc] at hr; cases hr
      | infoObj u => rw [hc] at hr; cases hr

theorem clickDetailsRef_append (h l : Heap) (r : HResults) (hck : r.clicks < h.length) :
    clickDetailsRef (h ++ l) r = clickDetailsRef h r := by
  unfold clickDetailsRef
  rw [hGet_append_lt h l r.clicks hck]

theorem clone_heap_shape (h : Heap) (r : HResults) :
    ∃ L : List HCell, (structuredCloneResults h r).1 = h ++ L := by
  cases hu : r.userInfo
  · simp only [structuredCloneResults, hu]
    exact ⟨_, by rw [List.append_assoc]⟩
  · simp only [structuredCloneResults, hu]
    exact ⟨_, by rw [List.append_assoc]⟩

theorem clone_snap_mm_ge (h : Heap) (r : HResults) :
    h.length ≤ (structuredCloneResults h r).2.mouseMovements := by
  cases hu : r.userInfo <;> simp [structuredCloneResults, hu]

theorem clone_snap_cd_ge (h : Heap) (r : HResults) :
    h.length ≤ clickDetailsRef (structuredCloneResults h r).1 (structuredCloneResults h r).2 := by
  cases hu : r.userInfo with
  | none =>
      simp only [structuredCloneResults, hu, clickDetailsRef]
      rw [List.append_assoc]
      unfold hGet
      rw [List.get?_append_right (by omega)]
      have h2 : h.length + 2 - h.length = 2 := by omega
      rw [h2]
      simp
  | some u =>
      simp only [structuredCloneResults, hu, clickDetailsRef]
      rw [List.append_assoc]
      unfold hGet
      rw [List.get?_append_right (by omega)]
      have h3 : h.length + 3 - h.length = 3 := by omega
      rw [h3]
      simp

theorem clone_snap_mm_content (h : Heap) (r : HResults) :
    hGet (structuredCloneResults h r).1 (structuredCloneResults h r).2.mouseMovements
      = some (arrCopy h r.mouseMovements) := by
  cases hu : r.userInfo with
  | none =>
      simp only [structuredCloneResults, hu]
      rw [List.append_assoc]
      unfold hGet
      rw [List.get?_append_right (by omega)]
      have h3 : h.length + 3 - h.length = 3 := by omega
      rw [h3]
      rfl
  | some u =>
      simp only [structuredCloneResults, hu]
      rw [List.append_assoc]
      unfold hGet
      rw [List.get?_append_right (by omega)]
      have h4 : h.length + 4 - h.length = 4 := by omega
      rw [h4]
      rfl

/-- C1 (amended): snapshot isolation holds for `getResults()` but not for the
flush path.  For every well-formed live buffer: (i) the object
`processResults()` hands to the consumer — `{...state.results}`, line 253 —
is a top-level copy whose every nested field holds the SAME reference as the
live buffer (`spreadResults r = r`), so mutating its nested sequences mutates
the live buffer (see the counterexample); (ii) the `getResults()` snapshot
(`structuredClone`, line 284) copies the contents and is structurally
independent: pushing into the clone's `mouseMovements` or
`clicks.clickDetails` does not change what the live buffer's references read,
and pushing into the live buffer's does not change what the clone's read. -/
theorem C1_snapshot_independence (h : Heap) (r : HResults) (es : List HEntry)
    (hmm : r.mouseMovements < h.length)
    (hcd : clickDetailsRef h r < h.length)
    (hes : readArr h r.mouseMovements = some es) :
    (spreadResults r = r) ∧
    (readArr (structuredCloneResults h r).1 (structuredCloneResults h r).2.mouseMovements
      = some es) ∧
    (∀ e, readArr (pushEntry (structuredCloneResults h r).1
        (structuredCloneResults h r).2.mouseMovements e) r.mouseMovements
      = readArr (structuredCloneResults h r).1 r.mouseMovements) ∧
    (∀ e, readArr (pushEntry (structuredCloneResults h r).1 r.mouseMovements e)
        (structuredCloneResults h r).2.mouseMovements
      = readArr (structuredCloneResults h r).1 (structuredCloneResults h r).2.mouseMovements) ∧
    (∀ e, readArr (pushEntry (structuredCloneResults h r).1
        (clickDetailsRef (structuredCloneResults h r).1 (structuredCloneResults h r).2) e)
        (clickDetailsRef h r)
      = readArr (structuredCloneResults h r).1 (clickDetailsRef h r)) ∧
    (∀ e, readArr (pushEntry (structuredCloneResults h r).1 (clickDetailsRef h r) e)
        (clickDetailsRef (structuredCloneResults h r).1 (structuredCloneResults h r).2)
      = readArr (structuredCloneResults h r).1
          (clickDetailsRef (structuredCloneResults h r).1 (structuredCloneResults h r).2)) := by
  have hmmge := clone_snap_mm_ge h r
  have hcdge := clone_snap_cd_ge h r
  refine ⟨rfl, ?_, ?_, ?_, ?_, ?_⟩
  · have hac : arrCopy h r.mouseMovements = .arr es := by
      unfold arrCopy
      rw [readArr_some h r.mouseMovements es hes]
      rfl
    unfold readArr
    rw [clone_snap_mm_content h r, hac]
  · intro e
    exact readArr_pushEntry_ne (structuredCloneResults h r).1
      (structuredCloneResults h r).2.mouseMovements r.mouseMovements e
      (Nat.ne_of_gt (lt_of_lt_of_le hmm hmmge))
  · intro e
    exact readArr_pushEntry_ne (structuredCloneResults h r).1
      r.mouseMovements (structuredCloneResults h r).2.mouseMovements e
      (Nat.ne_of_lt (lt_of_lt_of_le hmm hmmge))
  · intro e
    exact readArr_pushEntry_ne (structuredCloneResults h r).1
      (clickDetailsRef (structuredCloneResults h r).1 (structuredCloneResults h r).2)
      (clickDetailsRef h r) e
      (Nat.ne_of_gt (lt_of_lt_of_le hcd hcdge))
  · intro e
    exact readArr_pushEntry_ne (structuredCloneResults h r).1
      (clickDetailsRef h r)
      (clickDetailsRef (structuredCloneResults h r).1 (structuredCloneResults h r).2)
      e (Nat.ne_of_lt (lt_of_lt_of_le hcd hcdge))

/-- The live heap and result object freshly built by `resetResults` under the
default configuration. -/
def c1Heap : Heap := (resetResultsH envEx DEFAULT_CONFIG []).1

/-- The corresponding live result object. -/
def c1Live : HResults := (resetResultsH envEx DEFAULT_CONFIG []).2

/-- C1 counterexample: the object `processResults()` delivers to the consumer
callback is `{...state.results}` (line 253), modelled by `spreadResults`.
Pushing one entry into that delivered object's `mouseMovements` — and one
into its `clicks.clickDetails` — changes what the LIVE buffer's references
read (from `some []` to the pushed entry): mutating the delivered snapshot
mutates the live buffer, so the claimed structural independence fails for
`processResults()`. -/
theorem C1_counterexample :
    readArr c1Heap c1Live.mouseMovements = some [] ∧
    readArr (pushEntry c1Heap (spreadResults c1Live).mouseMovements (.mm 1 2 3))
        c1Live.mouseMovements = some [.mm 1 2 3] ∧
    readArr c1Heap (clickDetailsRef c1Heap c1Live) = some [] ∧
    readArr (pushEntry c1Heap (clickDetailsRef c1Heap (spreadResults c1Live)) (.cd 5 6 "x" 7))
        (clickDetailsRef c1Heap c1Live) = some [.cd 5 6 "x" 7] :=
  ⟨rfl, rfl, rfl, rfl⟩

theorem C1_witness :
    readArr (pushEntry (structuredCloneResults c1Heap c1Live).1
        (structuredCloneResults c1Heap c1Live).2.mouseMovements (.mm 7 8 9))
      c1Live.mouseMovements
    = readArr (structuredCloneResults c1Heap c1Live).1 c1Live.mouseMovements :=
  (C1_snapshot_independence c1Heap c1Live [] (by decide) (by decide)
    (by decide)).2.2.1 (.mm 7 8 9)

end UserBehaviour
